import Mathlib

/-!
Shallow embedding of the daily water-balance submodel of the pygday forest
ecosystem model (src/water_balance.py together with the tolerant float
comparisons and `clip` from src/utilities.py), and proofs of the spec claims
about it.

Modelling conventions:
* Python floats are modelled as real numbers (`ℝ`).
* Python code that can raise an exception (ZeroDivisionError, ValueError from
  `math.sqrt`/`math.log`, TypeError from arithmetic on `None`, `sys.exit`,
  UnboundLocalError) is modelled in the `Option` monad, with `none` standing
  for "the call raises".  Where a division in the source can only divide by
  zero on inputs far outside every claim's domain, the Lean total-division
  convention `x / 0 = 0` is used instead and the spot is noted in a comment.
* The optional atmospheric-pressure series is `Option ℝ`; `none` models the
  Python `None` sentinel.
-/

open Classical

noncomputable section

namespace Pygday

/-! ## Constants

`water_balance.py` imports a `constants` module that is not part of the two
source files.  Modelled from the spec: the constants below are the standard
unit-conversion factors named by the source and described in the spec
(net-longwave conversion, Kelvin offset, gas constant, mm/m, gC to mol C,
mol to µmol).  Their exact values are irrelevant to every claim proved here.
-/

/-- Modelled from the spec: `constants.WATT_HR_TO_MJ`, one watt-hour in MJ. -/
def WATT_HR_TO_MJ : ℝ := 0.0036

/-- Modelled from the spec: `constants.DEG_TO_KELVIN`. -/
def DEG_TO_KELVIN : ℝ := 273.15

/-- Modelled from the spec: `constants.RGAS`, the molar gas constant. -/
def RGAS : ℝ := 8.314

/-- Modelled from the spec: `constants.MM_TO_M`. -/
def MM_TO_M : ℝ := 0.001

/-- Modelled from the spec: `constants.GRAMS_C_TO_MOL_C`. -/
def GRAMS_C_TO_MOL_C : ℝ := 1 / 12

/-- Modelled from the spec: `constants.MOL_TO_UMOL`. -/
def MOL_TO_UMOL : ℝ := 1.0e6

/-! ## utilities.py -/

/-- Embeds `utilities.float_lt(arg1, arg2, tol=1E-14)`:
`arg2 - arg1 > fabs(arg1) * tol`. -/
def float_lt (arg1 arg2 : ℝ) : Prop := arg2 - arg1 > |arg1| * 1e-14

/-- Embeds `utilities.float_le(arg1, arg2)`: the source body is `return
float_lt(arg1, arg2)` - a strict comparison, although the docstring says
`arg1 <= arg2`. -/
def float_le (arg1 arg2 : ℝ) : Prop := float_lt arg1 arg2

/-- Embeds `utilities.float_gt(arg1, arg2, tol=1E-14)`:
`arg1 - arg2 > fabs(arg1) * tol`. -/
def float_gt (arg1 arg2 : ℝ) : Prop := arg1 - arg2 > |arg1| * 1e-14

/-- Embeds `utilities.float_eq(arg1, arg2, tol=1E-14)`:
`fabs(arg1 - arg2) < tol + tol * fabs(arg2)`. -/
def float_eq (arg1 arg2 : ℝ) : Prop := |arg1 - arg2| < 1e-14 + 1e-14 * |arg2|

/-- Embeds `utilities.clip(value, min, max)` with both bounds present (as at every
call site in `water_balance.py`): first raise to `min`, then cap at `max`. -/
def clip (value mn mx : ℝ) : ℝ :=
  let v1 := if value < mn then mn else value
  if v1 > mx then mx else v1

/-! ## Fallible Python primitives -/

/-- Python float division: `ZeroDivisionError` on a zero divisor. -/
def div_f (a b : ℝ) : Option ℝ := if b = 0 then none else some (a / b)

/-- Python `math.sqrt`: `ValueError` on a negative argument. -/
def sqrt_f (x : ℝ) : Option ℝ := if x < 0 then none else some (Real.sqrt x)

/-- Python `**` on floats with a float (runtime) exponent: `0 ** y` raises
`ZeroDivisionError` for `y < 0`, and a negative base raises `ValueError`
whenever the exponent is not integral (every use in the source with a
negative base would have a fractional exponent, so a negative base is
modelled as an error). -/
def pow_f (x y : ℝ) : Option ℝ :=
  if x < 0 then none
  else if x = 0 ∧ y < 0 then none
  else some (x ^ y)

/-! ## Data model -/

/-- Model control flags read by this core (`control` object). -/
structure Control where
  trans_model : ℤ
  assim_model : String
  sw_stress_model : ℤ
  calc_sw_params : Bool

/-- Model parameters read (and partly derived) by this core (`params`
object).  The four Landsberg-Waring stress parameters can be unset
(`None`), which `SoilMoisture.initialise_parameters` tests for. -/
structure Params where
  albedo : ℝ
  intercep_frac : ℝ
  max_intercep_lai : ℝ
  fractup_soil : ℝ
  wcapac_topsoil : ℝ
  wcapac_root : ℝ
  g1 : ℝ
  dz0v_dh : ℝ
  displace_ratio : ℝ
  z0h_z0m : ℝ
  qs : ℝ
  ctheta_topsoil : Option ℝ
  ntheta_topsoil : Option ℝ
  ctheta_root : Option ℝ
  ntheta_root : Option ℝ
  theta_sat_topsoil : ℝ
  theta_sat_root : ℝ
  b_topsoil : ℝ
  b_root : ℝ
  psi_sat_topsoil : ℝ
  psi_sat_root : ℝ
  topsoil_depth : ℝ
  rooting_depth : ℝ
  topsoil_type : String
  rootsoil_type : String

/-- Persistent model state (`state` object), mutated in place by the daily
step; modelled functionally (the step returns the new state). -/
structure State where
  pawater_topsoil : ℝ
  pawater_root : ℝ
  wtfac_topsoil : ℝ
  wtfac_root : ℝ
  lai : ℝ
  canht : ℝ
  delta_sw_store : ℝ

/-- Per-day fluxes (`fluxes` object).  `gpp_gCm2`, `gpp_am`, `gpp_pm` and
`wue` are inputs supplied by the host; the rest are outputs of the daily
water-balance call. -/
structure Fluxes where
  transpiration : ℝ
  soil_evap : ℝ
  interception : ℝ
  erain : ℝ
  et : ℝ
  runoff : ℝ
  gs_mol_m2_sec : ℝ
  ga_mol_m2_sec : ℝ
  omega : ℝ
  gpp_gCm2 : ℝ
  gpp_am : ℝ
  gpp_pm : ℝ
  wue : ℝ

/-- One day's meteorological forcing, i.e. the values
`WaterBalance.get_met_data` extracts from the `met_data` series for the
given day index.  `press` is `none` when the `atmos_press` series is
absent. -/
structure MetDay where
  tair_am : ℝ
  tair_pm : ℝ
  tair_day : ℝ
  rain : ℝ
  sw_rad_am : ℝ
  sw_rad_pm : ℝ
  sw_rad_day : ℝ
  vpd_am : ℝ
  vpd_pm : ℝ
  vpd_day : ℝ
  wind_am : ℝ
  wind_pm : ℝ
  wind_day : ℝ
  ca : ℝ
  press : Option ℝ

/-! ## class PenmanMonteith: thermodynamic helpers -/

/-- Constructor state of `PenmanMonteith` (constructor defaults from the
source; `WaterBalance.__init__` overrides only the three roughness
parameters). -/
structure PenmanMonteith where
  cp : ℝ := 1.013e-3
  vk : ℝ := 0.41
  epsilon : ℝ := 0.6222
  zele_sea : ℝ := 125
  dz0v_dh : ℝ := 0.1
  displace_ratio : ℝ := 0.67
  z0h_z0m : ℝ := 1

/-- Embeds `PenmanMonteith.calc_slope_of_saturation_vapour_pressure_curve`
(FAO-56 eq. 13).  The division by `t ** 2` could only divide by zero at
`tavg = -237.3` (a Python `ZeroDivisionError`); modelled with total
division. -/
def PenmanMonteith.calc_slope_of_saturation_vapour_pressure_curve
    (tavg : ℝ) : ℝ :=
  let t := tavg + 237.3
  let arg1 := 4098 * (0.6108 * Real.exp ((17.27 * tavg) / t))
  let arg2 := t ^ 2
  arg1 / arg2

/-- Embeds `PenmanMonteith.calc_pyschrometric_constant` (FAO-56 eq. 8):
`cp * press / (epsilon * lambdax)`.  The divisor is zero only when
`lambdax = 0` (`tavg` ≈ 1059 °C); modelled with total division. -/
def PenmanMonteith.calc_pyschrometric_constant
    (self : PenmanMonteith) (lambdax press : ℝ) : ℝ :=
  (self.cp * press) / (self.epsilon * lambdax)

/-- Embeds `PenmanMonteith.calc_atmos_pressure` (FAO-56 eq. 7). -/
def PenmanMonteith.calc_atmos_pressure (self : PenmanMonteith) : ℝ :=
  101.3 * ((293 - 0.0065 * self.zele_sea) / 293) ^ (5.26 : ℝ)

/-- Embeds `PenmanMonteith.calc_latent_heat_of_vapourisation`:
`2.501 - 0.002361 * tavg`. -/
def PenmanMonteith.calc_latent_heat_of_vapourisation (tavg : ℝ) : ℝ :=
  2.501 - 0.002361 * tavg

/-- Embeds `PenmanMonteith.calc_density_of_air`: `1.292 - 0.00428 * tavg`. -/
def PenmanMonteith.calc_density_of_air (tavg : ℝ) : ℝ :=
  1.292 - 0.00428 * tavg

/-- Embeds `PenmanMonteith.canopy_boundary_layer_conductance(wind, canht)`:
logarithmic wind profile.  In Python a non-positive log argument raises
`ValueError` and `canht = 0` raises `ZeroDivisionError`; those degenerate
inputs lie outside every claim's domain and the Lean total conventions
(`Real.log x = 0` for `x ≤ 0`, `x / 0 = 0`) are used. -/
def PenmanMonteith.canopy_boundary_layer_conductance
    (self : PenmanMonteith) (wind canht : ℝ) : ℝ :=
  let z0m := self.dz0v_dh * canht
  let z0h := self.z0h_z0m * z0m
  let d := self.displace_ratio * canht
  let arg1 := self.vk ^ 2 * wind
  let arg2 := Real.log ((canht - d) / z0m)
  let arg3 := Real.log ((canht - d) / z0h)
  arg1 / (arg2 * arg3)

/-- Embeds `PenmanMonteith.calc_evaporation(vpd, wind, gs, net_rad, tavg, press,
canht=None, ga=None)`.  Returns `(et, omega)`.  `press = None` falls back to
the elevation-based pressure; `ga = None` recomputes the aerodynamic
conductance from wind and canopy height (raising a TypeError, modelled as
`none`, when `canht` is also `None`).  The `gs ≤ 0` branch returns
`(0, 0)`. -/
def PenmanMonteith.calc_evaporation
    (self : PenmanMonteith) (vpd wind gs net_rad tavg : ℝ)
    (press : Option ℝ) (canht : Option ℝ) (ga : Option ℝ) :
    Option (ℝ × ℝ) := do
  let p := press.getD self.calc_atmos_pressure
  let lambdax := PenmanMonteith.calc_latent_heat_of_vapourisation tavg
  let gamma := self.calc_pyschrometric_constant lambdax p
  let slope := PenmanMonteith.calc_slope_of_saturation_vapour_pressure_curve tavg
  let rho := PenmanMonteith.calc_density_of_air tavg
  let gav ← match ga with
    | some g => pure g
    | none => do
        let ch ← canht
        pure (self.canopy_boundary_layer_conductance wind ch)
  if float_gt gs 0 then
    let e := slope / gamma
    let omega := (e + 1) / (e + 1 + gav / gs)
    let arg1 := slope * net_rad + rho * self.cp * vpd * gav
    let arg2 := slope + gamma * (1 + gav / gs)
    pure (arg1 / arg2 / lambdax, omega)
  else
    pure (0, 0)

/-! ## class Penman (equilibrium evaporation override) -/

/-- Embeds `Penman.calc_evaporation(net_rad, tavg, press)`: equilibrium
evaporation, `((slope / (slope + gamma)) * net_rad) / lambdax`.  Unlike the
Priestley-Taylor override it does handle `press = None`. -/
def Penman.calc_evaporation
    (self : PenmanMonteith) (net_rad tavg : ℝ) (press : Option ℝ) : ℝ :=
  let p := press.getD self.calc_atmos_pressure
  let lambdax := PenmanMonteith.calc_latent_heat_of_vapourisation tavg
  let gamma := self.calc_pyschrometric_constant lambdax p
  let slope := PenmanMonteith.calc_slope_of_saturation_vapour_pressure_curve tavg
  ((slope / (slope + gamma)) * net_rad) / lambdax

/-! ## class PriestleyTaylor (potential evaporation override) -/

/-- Embeds `PriestleyTaylor.calc_evaporation(net_rad, tavg, press, pt_coeff)`:
`(pt_coeff / lambdax) * (slope / (slope + gamma)) * net_rad`.  This override
has no `press == None` fallback: the psychrometric constant is computed with
`press` directly, so a missing pressure raises a TypeError (`none`). -/
def PriestleyTaylor.calc_evaporation
    (self : PenmanMonteith) (net_rad tavg : ℝ) (press : Option ℝ)
    (pt_coeff : ℝ) : Option ℝ := do
  let lambdax := PenmanMonteith.calc_latent_heat_of_vapourisation tavg
  let p ← press
  let gamma := self.calc_pyschrometric_constant lambdax p
  let slope := PenmanMonteith.calc_slope_of_saturation_vapour_pressure_curve tavg
  pure ((pt_coeff / lambdax) * (slope / (slope + gamma)) * net_rad)

/-! ## class WaterBalance

`WaterBalance.__init__` stores the collaborating objects and builds one
`PenmanMonteith` instance from the three roughness parameters (all other
constructor arguments keep their defaults).  The methods below take the
collaborators explicitly and return the updated objects. -/

/-- The `self.P` Penman-Monteith instance built in `WaterBalance.__init__`. -/
def WaterBalance.P (params : Params) : PenmanMonteith :=
  { dz0v_dh := params.dz0v_dh, displace_ratio := params.displace_ratio,
    z0h_z0m := params.z0h_z0m }

/-- Embeds `WaterBalance.calc_infiltration(rain)`: sets `fluxes.interception` and
`fluxes.erain`.  The division `lai / max_intercep_lai` would raise in Python
only for `max_intercep_lai = 0`; modelled with total division. -/
def WaterBalance.calc_infiltration
    (params : Params) (state : State) (fluxes : Fluxes) (rain : ℝ) : Fluxes :=
  if state.lai > 0 then
    let interception :=
      rain * params.intercep_frac *
        min 1 (state.lai / params.max_intercep_lai)
    { fluxes with interception := interception, erain := rain - interception }
  else
    { fluxes with erain := max 0 rain, interception := 0 }

/-- Embeds `WaterBalance.calc_transpiration()`: the WUE path,
`transpiration = gpp_gCm2 / wue` when `float_gt(wue, 0)`, else `0`. -/
def WaterBalance.calc_transpiration (fluxes : Fluxes) : Fluxes :=
  if float_gt fluxes.wue 0 then
    { fluxes with transpiration := fluxes.gpp_gCm2 / fluxes.wue }
  else
    { fluxes with transpiration := 0 }

/-- Embeds `WaterBalance.calc_transpiration_priestay(net_rad, tavg, press)`:
builds a default `PriestleyTaylor()` instance and runs it with
`pt_coeff=1.26`. -/
def WaterBalance.calc_transpiration_priestay
    (fluxes : Fluxes) (net_rad tavg : ℝ) (press : Option ℝ) :
    Option Fluxes := do
  let t ← PriestleyTaylor.calc_evaporation {} net_rad tavg press 1.26
  pure { fluxes with transpiration := t }

/-- Embeds `WaterBalance.calc_stomatal_conductance(vpd, ca, daylen, gpp, press,
temp)` (Medlyn et al. optimal stomatal model); `press` and `temp` are
accepted but unused, exactly as in the source.  Raises (`none`) on
`daylen = 0` (ZeroDivisionError), `vpd < 0` (sqrt ValueError), `vpd = 0`
(division by `sqrt(0)`), and `ca = 0` (ZeroDivisionError). -/
def WaterBalance.calc_stomatal_conductance
    (params : Params) (state : State) (vpd ca daylen gpp : ℝ)
    (press : Option ℝ) (temp : ℝ) : Option ℝ := do
  let _ := press
  let _ := temp
  let DAY_2_SEC ← div_f 1 (60 * 60 * daylen)
  let gpp_umol_m2_sec := gpp * GRAMS_C_TO_MOL_C * MOL_TO_UMOL * DAY_2_SEC
  let s ← sqrt_f vpd
  let q ← div_f (params.g1 * state.wtfac_root) s
  let arg1 := 1.6 * (1 + q)
  let arg2 ← div_f gpp_umol_m2_sec ca
  pure (arg1 * arg2)

/-- Embeds `WaterBalance.calc_radiation(tavg, sw_rad, daylen)`: clear-sky net
radiation, converted to per-second units.  The `1 / (3600 * daylen)`
division would raise in Python only for `daylen = 0`; modelled with total
division. -/
def WaterBalance.calc_radiation
    (params : Params) (tavg sw_rad daylen : ℝ) : ℝ :=
  let net_lw := (107 - 0.3 * tavg) * daylen * WATT_HR_TO_MJ
  let net_rad := max 0 (sw_rad * (1 - params.albedo) - net_lw)
  let tconv := 1 / (60 * 60 * daylen)
  net_rad * tconv

/-- Embeds `WaterBalance.calc_soil_evaporation(tavg, net_rad, press, daylen,
sw_rad)`: potential (Penman equilibrium) soil evaporation, reduced by
canopy shading when `float_gt(lai, 0)` and by topsoil dryness; `sw_rad` is
accepted but unused, exactly as in the source. -/
def WaterBalance.calc_soil_evaporation
    (params : Params) (state : State) (tavg net_rad : ℝ)
    (press : Option ℝ) (daylen sw_rad : ℝ) : ℝ :=
  let _ := params
  let _ := sw_rad
  let soil_evap := Penman.calc_evaporation {} net_rad tavg press
  let soil_evap1 :=
    if float_gt state.lai 0 then
      soil_evap * Real.exp (-0.398 * state.lai)
    else soil_evap
  let soil_evap2 := soil_evap1 * state.wtfac_topsoil
  let tconv := 60 * 60 * daylen
  soil_evap2 * tconv

/-- Embeds `WaterBalance.update_water_storage()`: the two-layer leaky-bucket
update.  Order as in the source: raw topsoil update, topsoil clip, raw
root-zone update, overflow/runoff removal, drought feedback
(`float_le(pawater_root, 0)`), final root-zone clip, `delta_sw_store`.
Returns `(new state, new fluxes, runoff)`.  (The source's `tolerance=1E-08`
default parameter is unused in its body and omitted here.) -/
def WaterBalance.update_water_storage
    (params : Params) (state : State) (fluxes : Fluxes) :
    State × Fluxes × ℝ :=
  let trans_frac := params.fractup_soil * state.wtfac_topsoil
  let pt1 := state.pawater_topsoil +
    (fluxes.erain - fluxes.transpiration * trans_frac - fluxes.soil_evap)
  let pt2 := clip pt1 0 params.wcapac_topsoil
  let previous := state.pawater_root
  let pr1 := previous +
    (fluxes.erain - fluxes.transpiration - fluxes.soil_evap)
  let runoff := if pr1 > params.wcapac_root then pr1 - params.wcapac_root
                else 0
  let pr2 := if pr1 > params.wcapac_root then pr1 - (pr1 - params.wcapac_root)
             else pr1
  let fluxes2 :=
    if float_le pr2 0 then
      { fluxes with transpiration := 0, soil_evap := 0,
                    et := fluxes.interception }
    else fluxes
  let pr3 := clip pr2 0 params.wcapac_root
  let state2 :=
    { state with pawater_topsoil := pt2, pawater_root := pr3,
                 delta_sw_store := pr3 - previous }
  (state2, fluxes2, runoff)

/-- Embeds `WaterBalance.calc_transpiration_penmon(vpd, net_rad, tavg, wind, ca,
daylen, press)`: the daily (BEWDY) Penman-Monteith path.  After the
stomatal-conductance computation and the `press / (RGAS * tk)` unit
conversion (a TypeError when the pressure series is absent), the source
calls `self.P.canopy_boundary_layer_conductance(wind)` with the required
`canht` argument missing, so every call raises a TypeError - modelled by
ending in `none`. -/
def WaterBalance.calc_transpiration_penmon
    (params : Params) (state : State) (fluxes : Fluxes)
    (vpd net_rad tavg wind ca daylen : ℝ) (press : Option ℝ) :
    Option Fluxes := do
  let _ := net_rad
  let _ := wind
  let gs_mol_m2_sec ← WaterBalance.calc_stomatal_conductance params state
    vpd ca daylen fluxes.gpp_gCm2 press tavg
  let _ := gs_mol_m2_sec
  let tk := tavg + DEG_TO_KELVIN
  let pv ← press
  let q ← div_f pv (RGAS * tk)
  let MOL_SEC_2_M_PER_SEC ← div_f MM_TO_M q
  let _ := MOL_SEC_2_M_PER_SEC
  none

/-- Embeds `WaterBalance.calc_transpiration_penmon_am_pm(net_rad, wind, ca,
daylen, press, vpd, tair, gpp)`: the half-day (MATE) Penman-Monteith path;
returns `(trans, omegax, gs_mol_m2_hfday, ga_mol_m2_hfday)` in half-day
units.  Arithmetic on a missing pressure (`press / (RGAS * Tk)`) is a
TypeError (`none`). -/
def WaterBalance.calc_transpiration_penmon_am_pm
    (params : Params) (state : State)
    (net_rad wind ca daylen : ℝ) (press : Option ℝ) (vpd tair gpp : ℝ) :
    Option (ℝ × ℝ × ℝ × ℝ) := do
  let canht := state.canht
  let half_day := daylen / 2
  let SEC_2_HALF_DAY := 60 * 60 * half_day
  let HALF_DAY_2_SEC ← div_f 1 SEC_2_HALF_DAY
  let _ := HALF_DAY_2_SEC
  let Tk := tair + DEG_TO_KELVIN
  let pv ← press
  let q ← div_f pv (RGAS * Tk)
  let MOL_SEC_2_M_PER_SEC ← div_f MM_TO_M q
  let M_PER_SEC_2_MOL_SEC ← div_f 1 MOL_SEC_2_M_PER_SEC
  let ga_m_per_sec :=
    PenmanMonteith.canopy_boundary_layer_conductance (WaterBalance.P params)
      wind canht
  let gs_mol_m2_sec ← WaterBalance.calc_stomatal_conductance params state
    vpd ca half_day gpp press tair
  let ga_mol_m2_hfday := ga_m_per_sec * M_PER_SEC_2_MOL_SEC * SEC_2_HALF_DAY
  let gs_mol_m2_hfday := gs_mol_m2_sec * SEC_2_HALF_DAY
  let gs_m_per_sec := gs_mol_m2_sec * MOL_SEC_2_M_PER_SEC
  let r ← PenmanMonteith.calc_evaporation (WaterBalance.P params)
    vpd wind gs_m_per_sec net_rad tair press (some canht) (some ga_m_per_sec)
  pure (r.1 * SEC_2_HALF_DAY, r.2, gs_mol_m2_hfday, ga_mol_m2_hfday)

/-- The transpiration-model dispatch of
`WaterBalance.calculate_water_balance` (the `if/elif` chain on
`control.trans_model` and, inside model 1, on `control.assim_model`).
Neither chain has an `else` branch in the source: an unrecognized value
falls through and the incoming `fluxes` (with the previous day's
`transpiration`, `gs_mol_m2_sec`, `ga_mol_m2_sec`, `omega`) is kept
unchanged. -/
def WaterBalance.transpiration_step
    (control : Control) (params : Params) (state : State) (fluxes : Fluxes)
    (met : MetDay) (daylen net_rad_day net_rad_am net_rad_pm : ℝ) :
    Option Fluxes :=
  if control.trans_model = 0 then
    pure (WaterBalance.calc_transpiration fluxes)
  else if control.trans_model = 1 then
    if control.assim_model = "BEWDY" then
      WaterBalance.calc_transpiration_penmon params state fluxes
        met.vpd_day net_rad_day met.tair_day met.wind_day met.ca daylen
        met.press
    else if control.assim_model = "MATE" then do
      let r_am ← WaterBalance.calc_transpiration_penmon_am_pm params state
        net_rad_am met.wind_am met.ca daylen met.press met.vpd_am met.tair_am
        fluxes.gpp_am
      let r_pm ← WaterBalance.calc_transpiration_penmon_am_pm params state
        net_rad_pm met.wind_pm met.ca daylen met.press met.vpd_pm met.tair_pm
        fluxes.gpp_pm
      let DAY_2_SEC ← div_f 1 (60 * 60 * daylen)
      pure { fluxes with
        omega := (r_am.2.1 + r_pm.2.1) / 2,
        gs_mol_m2_sec := (r_am.2.2.1 + r_pm.2.2.1) * DAY_2_SEC,
        ga_mol_m2_sec := (r_am.2.2.2 + r_pm.2.2.2) * DAY_2_SEC,
        transpiration := r_am.1 + r_pm.1 }
    else
      pure fluxes
  else if control.trans_model = 2 then
    WaterBalance.calc_transpiration_priestay fluxes net_rad_day met.tair_day
      met.press
  else
    pure fluxes

/-- Embeds `WaterBalance.calculate_water_balance(day, daylen)`: the daily step.
Fetches the day's forcing, computes net radiation for the day and both
half-days, dispatches the transpiration model, computes
infiltration/interception, soil evaporation and total evapotranspiration,
then runs the storage update, which also sets `fluxes.runoff`.  Returns the
new `(state, fluxes)`. -/
def WaterBalance.calculate_water_balance
    (control : Control) (params : Params) (state : State) (fluxes : Fluxes)
    (met : MetDay) (daylen : ℝ) : Option (State × Fluxes) := do
  let half_day := daylen / 2
  let net_rad_day := WaterBalance.calc_radiation params met.tair_day
    met.sw_rad_day daylen
  let net_rad_am := WaterBalance.calc_radiation params met.tair_am
    met.sw_rad_am half_day
  let net_rad_pm := WaterBalance.calc_radiation params met.tair_pm
    met.sw_rad_pm half_day
  let fluxes1 ← WaterBalance.transpiration_step control params state fluxes
    met daylen net_rad_day net_rad_am net_rad_pm
  let fluxes2 := WaterBalance.calc_infiltration params state fluxes1 met.rain
  let soil_evap := WaterBalance.calc_soil_evaporation params state
    met.tair_day net_rad_day met.press daylen met.sw_rad_day
  let fluxes3 := { fluxes2 with soil_evap := soil_evap }
  let fluxes4 := { fluxes3 with
    et := fluxes3.transpiration + fluxes3.soil_evap + fluxes3.interception }
  let r := WaterBalance.update_water_storage params state fluxes4
  let fluxes5 := { r.2.1 with runoff := r.2.2 }
  pure (r.1, fluxes5)

/-! ## class SoilMoisture -/

/-- Embeds `SoilMoisture.get_soil_params(soil_type)`: Landsberg-Waring
`(c_theta, n_theta)` per texture class; an unknown tag hits the final
`else`, which prints and calls `sys.exit()` (modelled as `none`). -/
def SoilMoisture.get_soil_params (soil_type : String) : Option (ℝ × ℝ) :=
  if soil_type = "clay" then some (0.4, 3)
  else if soil_type = "clay_loam" then some (0.5, 5)
  else if soil_type = "loam" then some (0.55, 6)
  else if soil_type = "loamy_sand" then some (0.65, 8)
  else if soil_type = "sand" then some (0.7, 9)
  else if soil_type = "sandy_clay" then some (0.45, 4)
  else if soil_type = "sandy_clay_loam" then some (0.525, 5.5)
  else if soil_type = "sandy_loam" then some (0.6, 7)
  else if soil_type = "silt" then some (0.625, 7.5)
  else if soil_type = "silty_clay" then some (0.425, 3.5)
  else if soil_type = "silty_clay_loam" then some (0.475, 4.5)
  else if soil_type = "silty_loam" then some (0.575, 6.5)
  else none

/-- Embeds `SoilMoisture.get_soil_fracs(soil_type)`: Cosby texture fractions
`(silt, sand, clay)`; an unknown tag prints and calls `sys.exit()`
(modelled as `none`). -/
def SoilMoisture.get_soil_fracs (soil_type : String) : Option (ℝ × ℝ × ℝ) :=
  if soil_type = "sand" then some (0.05, 0.92, 0.03)
  else if soil_type = "loamy_sand" then some (0.12, 0.82, 0.06)
  else if soil_type = "sandy_loam" then some (0.32, 0.58, 0.1)
  else if soil_type = "loam" then some (0.39, 0.43, 0.18)
  else if soil_type = "silty_loam" then some (0.70, 0.17, 0.13)
  else if soil_type = "sandy_clay_loam" then some (0.15, 0.58, 0.27)
  else if soil_type = "clay_loam" then some (0.34, 0.32, 0.34)
  else if soil_type = "silty_clay_loam" then some (0.56, 0.1, 0.34)
  else if soil_type = "sandy_clay" then some (0.06, 0.52, 0.42)
  else if soil_type = "silty_clay" then some (0.47, 0.06, 0.47)
  else if soil_type = "clay" then some (0.2, 0.22, 0.58)
  else none

/-- Embeds `SoilMoisture.calc_soil_params(fsoil)`: Cosby/Clapp-Hornberger
pedotransfer.  `fsoil = (silt, sand, clay)`; returns
`(theta_fc, theta_wp, theta_sp, b, psi_sat_mpa)`.  The rpow bases
`psi_sat / pressure_head` are positive for every texture (both factors
negative), so Python `**` never raises here. -/
def SoilMoisture.calc_soil_params (fsoil : ℝ × ℝ × ℝ) :
    ℝ × ℝ × ℝ × ℝ × ℝ :=
  let pressure_head_wilt : ℝ := -152.9
  let pressure_head_crit : ℝ := -3.364
  let b := 3.1 + 15.7 * fsoil.2.2 - 0.3 * fsoil.2.1
  let psi_sat :=
    0.01 * -((10 : ℝ) ^ (1.54 - 0.95 * fsoil.2.1 + 0.63 * fsoil.1))
  let KPA_2_MPA : ℝ := 0.001
  let METER_OF_HEAD_TO_MPA := 9.81 * KPA_2_MPA
  let psi_sat_mpa := psi_sat * METER_OF_HEAD_TO_MPA
  let theta_sp := 0.505 - 0.037 * fsoil.2.2 - 0.142 * fsoil.2.1
  let theta_wp := theta_sp * (psi_sat / pressure_head_wilt) ^ (1 / b)
  let theta_fc := theta_sp * (psi_sat / pressure_head_crit) ^ (1 / b)
  (theta_fc, theta_wp, theta_sp, b, psi_sat_mpa)

/-- First block of `SoilMoisture.initialise_parameters()`: when
`control.calc_sw_params` is set, derive the hydraulic parameters and the
two layer capacities from the texture lookups (a fatal error - `none` - on
an unknown soil-type tag); otherwise leave the parameters untouched. -/
def SoilMoisture.derive_hydraulics
    (control : Control) (params : Params) : Option Params :=
  if control.calc_sw_params then do
    let fsoil_top ← SoilMoisture.get_soil_fracs params.topsoil_type
    let fsoil_root ← SoilMoisture.get_soil_fracs params.rootsoil_type
    let rt := SoilMoisture.calc_soil_params fsoil_top
    let rr := SoilMoisture.calc_soil_params fsoil_root
    pure { params with
      theta_sat_topsoil := rt.2.2.1,
      b_topsoil := rt.2.2.2.1,
      psi_sat_topsoil := rt.2.2.2.2,
      wcapac_topsoil := params.topsoil_depth * (rt.1 - rt.2.1),
      theta_sat_root := rr.2.2.1,
      b_root := rr.2.2.2.1,
      psi_sat_root := rr.2.2.2.2,
      wcapac_root := params.rooting_depth * (rr.1 - rr.2.1) }
  else
    pure params

/-- Second block of `SoilMoisture.initialise_parameters()`: only when all
four Landsberg-Waring parameters are unset (`None`), derive them from the
texture table, using the soil-type tags read at entry. -/
def SoilMoisture.derive_lw
    (topsoil_type rootsoil_type : String) (params1 : Params) :
    Option Params :=
  if params1.ctheta_topsoil = none ∧ params1.ntheta_topsoil = none ∧
     params1.ctheta_root = none ∧ params1.ntheta_root = none then do
    let ct ← SoilMoisture.get_soil_params topsoil_type
    let cr ← SoilMoisture.get_soil_params rootsoil_type
    pure { params1 with
      ctheta_topsoil := some ct.1, ntheta_topsoil := some ct.2,
      ctheta_root := some cr.1, ntheta_root := some cr.2 }
  else
    pure params1

/-- Embeds `SoilMoisture.initialise_parameters()`: run once at setup; the two
sequential blocks above. -/
def SoilMoisture.initialise_parameters
    (control : Control) (params : Params) : Option Params := do
  let params1 ← SoilMoisture.derive_hydraulics control params
  SoilMoisture.derive_lw params.topsoil_type params.rootsoil_type params1

/-- Embeds `SoilMoisture.calc_sw_modifier(theta, c_theta, n_theta)` (Landsberg and
Waring): `1 / (1 + ((1 - theta) / c_theta) ** n_theta)`. -/
def SoilMoisture.calc_sw_modifier (theta c_theta n_theta : ℝ) : Option ℝ := do
  let b ← div_f (1 - theta) c_theta
  let p ← pow_f b n_theta
  div_f 1 (1 + p)

/-- Embeds `SoilMoisture.calculate_soil_water_fac()`: relative saturation of each
layer, then one of three stress models.  Raises (`none`) on a zero layer
capacity (ZeroDivisionError in the `smc` divisions).  Under stress model 1
an unset (`None`) `ctheta`/`ntheta` parameter is a TypeError.  For an
unrecognized `sw_stress_model` no branch assigns `wtfac_topsoil` /
`wtfac_root` and the `return` raises UnboundLocalError (`none`). -/
def SoilMoisture.calculate_soil_water_fac
    (control : Control) (params : Params) (state : State) :
    Option (ℝ × ℝ) := do
  let smc_topsoil ← div_f state.pawater_topsoil params.wcapac_topsoil
  let smc_root ← div_f state.pawater_root params.wcapac_root
  if control.sw_stress_model = 0 then do
    let wtfac_topsoil ← pow_f smc_topsoil params.qs
    let wtfac_root ← pow_f smc_root params.qs
    pure (wtfac_topsoil, wtfac_root)
  else if control.sw_stress_model = 1 then do
    let ct ← params.ctheta_topsoil
    let nt ← params.ntheta_topsoil
    let cr ← params.ctheta_root
    let nr ← params.ntheta_root
    let wtfac_topsoil ← SoilMoisture.calc_sw_modifier smc_topsoil ct nt
    let wtfac_root ← SoilMoisture.calc_sw_modifier smc_root cr nr
    pure (wtfac_topsoil, wtfac_root)
  else if control.sw_stress_model = 2 then do
    let psi_swp_topsoil ←
      if float_eq smc_topsoil 0 then pure (-1.5 : ℝ)
      else do
        let arg2 ← div_f smc_topsoil params.theta_sat_topsoil
        let p ← pow_f arg2 (-params.b_topsoil)
        pure (params.psi_sat_topsoil * p)
    let psi_swp_root ←
      if float_eq smc_root 0 then pure (-1.5 : ℝ)
      else do
        let arg2 ← div_f smc_root params.theta_sat_root
        let p ← pow_f arg2 (-params.b_root)
        pure (params.psi_sat_root * p)
    let b : ℝ := 0.66
    pure (Real.exp (b * psi_swp_topsoil), Real.exp (b * psi_swp_root))
  else
    none

/-! ## Sample concrete inputs (used by witnesses and counterexamples) -/

/-- A baseline parameter set with physically ordinary values. -/
def pC : Params :=
  { albedo := 0.15, intercep_frac := 0.3, max_intercep_lai := 3,
    fractup_soil := 0.5, wcapac_topsoil := 50, wcapac_root := 100,
    g1 := 2.35, dz0v_dh := 0.1, displace_ratio := 0.67, z0h_z0m := 1,
    qs := 1, ctheta_topsoil := some 0.5, ntheta_topsoil := some 5,
    ctheta_root := some 0.5, ntheta_root := some 5,
    theta_sat_topsoil := 0.4, theta_sat_root := 0.4,
    b_topsoil := 3, b_root := 3,
    psi_sat_topsoil := -0.001, psi_sat_root := -0.001,
    topsoil_depth := 350, rooting_depth := 750,
    topsoil_type := "clay", rootsoil_type := "clay" }

/-- A baseline state: a bare (lai = 0) patch with moist soil. -/
def sC : State :=
  { pawater_topsoil := 10, pawater_root := 20, wtfac_topsoil := 1,
    wtfac_root := 1, lai := 0, canht := 20, delta_sw_store := 0 }

/-- Baseline incoming fluxes (with a previous-day transpiration of 7). -/
def fC : Fluxes :=
  { transpiration := 7, soil_evap := 0, interception := 0,
    erain := 0, et := 0, runoff := 0, gs_mol_m2_sec := 0,
    ga_mol_m2_sec := 0, omega := 0, gpp_gCm2 := 5, gpp_am := 2,
    gpp_pm := 3, wue := 2 }

/-! ## Claim C2: storage bounds invariant -/

/-- Helper: `clip v 0 mx` lands in `[0, mx]` whenever `0 ≤ mx`. -/
theorem clip_bounds (v mx : ℝ) (hmx : 0 ≤ mx) :
    0 ≤ clip v 0 mx ∧ clip v 0 mx ≤ mx := by
  simp only [clip]
  split_ifs <;> constructor <;> linarith

/-- Claim C2: for every starting state and every combination of the day's
fluxes (`erain`, `transpiration`, `soil_evap`) and parameters
(`fractup_soil`, `wtfac_topsoil`), provided the layer capacities are
non-negative, both layers of the state returned by `update_water_storage`
satisfy `0 ≤ pawater_topsoil ≤ wcapac_topsoil` and
`0 ≤ pawater_root ≤ wcapac_root`. -/
theorem update_water_storage_store_bounds
    (params : Params) (state : State) (fluxes : Fluxes)
    (htop : 0 ≤ params.wcapac_topsoil) (hroot : 0 ≤ params.wcapac_root) :
    0 ≤ (WaterBalance.update_water_storage params state fluxes).1.pawater_topsoil ∧
    (WaterBalance.update_water_storage params state fluxes).1.pawater_topsoil ≤
      params.wcapac_topsoil ∧
    0 ≤ (WaterBalance.update_water_storage params state fluxes).1.pawater_root ∧
    (WaterBalance.update_water_storage params state fluxes).1.pawater_root ≤
      params.wcapac_root := by
  refine ⟨?_, ?_, ?_, ?_⟩ <;>
    simp only [WaterBalance.update_water_storage] <;>
    first
      | exact (clip_bounds _ _ htop).1
      | exact (clip_bounds _ _ htop).2
      | exact (clip_bounds _ _ hroot).1
      | exact (clip_bounds _ _ hroot).2

/-- Witness for C2 at a concrete input. -/
theorem update_water_storage_store_bounds_witness :
    0 ≤ (WaterBalance.update_water_storage pC sC fC).1.pawater_topsoil ∧
    (WaterBalance.update_water_storage pC sC fC).1.pawater_topsoil ≤
      pC.wcapac_topsoil ∧
    0 ≤ (WaterBalance.update_water_storage pC sC fC).1.pawater_root ∧
    (WaterBalance.update_water_storage pC sC fC).1.pawater_root ≤
      pC.wcapac_root :=
  update_water_storage_store_bounds pC sC fC
    (by norm_num [pC]) (by norm_num [pC])

/-! ## Claim C3: runoff characterization -/

/-- Claim C3: the runoff returned by `update_water_storage` is non-negative
and equals `max 0 (r - wcapac_root)` where `r` is the raw (unclipped)
root-zone store `pawater_root_before + erain - transpiration - soil_evap`;
and in the spec's overflow scenario (`wcapac_root = 100`, start `95`, net
day input `+10`) the runoff is `5` and the final root store is `100`. -/
theorem update_water_storage_runoff_spec
    (params : Params) (state : State) (fluxes : Fluxes) :
    (0 ≤ (WaterBalance.update_water_storage params state fluxes).2.2 ∧
     (WaterBalance.update_water_storage params state fluxes).2.2 =
       max 0 (state.pawater_root +
         (fluxes.erain - fluxes.transpiration - fluxes.soil_evap) -
         params.wcapac_root)) ∧
    (WaterBalance.update_water_storage pC { sC with pawater_root := 95 }
      { fC with erain := 10, transpiration := 0, soil_evap := 0 }).2.2 = 5 ∧
    (WaterBalance.update_water_storage pC { sC with pawater_root := 95 }
      { fC with erain := 10, transpiration := 0,
                soil_evap := 0 }).1.pawater_root = 100 := by
  refine ⟨⟨?_, ?_⟩, ?_, ?_⟩
  · simp only [WaterBalance.update_water_storage]
    split_ifs with h
    · linarith
    · exact le_refl 0
  · simp only [WaterBalance.update_water_storage]
    split_ifs with h
    · rw [max_eq_right (by linarith)]
    · rw [max_eq_left (by linarith)]
  · norm_num [WaterBalance.update_water_storage, pC, sC, fC, clip,
      float_le, float_lt]
  · norm_num [WaterBalance.update_water_storage, pC, sC, fC, clip,
      float_le, float_lt]

/-! ## Claim C1: drought feedback at a raw store of exactly zero -/

/-- State for the C1 boundary input: the raw root-zone update lands exactly
on zero (`5 + (1 - 5 - 1) = 0`). -/
def sC1 : State := { sC with pawater_root := 5 }

/-- Fluxes for the C1 boundary input. -/
def fC1 : Fluxes :=
  { fC with erain := 1, transpiration := 5, soil_evap := 1,
            interception := 2, et := 8 }

/-- Claim C1, evaluated at the failing input: when the raw root-zone store
lands exactly on zero, the drought feedback does NOT fire - the day's
fluxes keep `transpiration = 5`, `soil_evap = 1`, `et = 8 ≠ interception`
- because `utilities.float_le` delegates to the strict `float_lt`
(`float_le(0, 0)` is `0 - 0 > |0| * 1e-14`, i.e. false), contradicting both
the claim and `float_le`'s own docstring `arg1 <= arg2`.  The final
conjunct records that the comparison at the heart of the branch rejects
`(0, 0)`. -/
theorem update_water_storage_drought_exact_zero :
    sC1.pawater_root + (fC1.erain - fC1.transpiration - fC1.soil_evap) = 0 ∧
    (WaterBalance.update_water_storage pC sC1 fC1).1.pawater_root = 0 ∧
    (WaterBalance.update_water_storage pC sC1 fC1).2.1.transpiration = 5 ∧
    (WaterBalance.update_water_storage pC sC1 fC1).2.1.soil_evap = 1 ∧
    (WaterBalance.update_water_storage pC sC1 fC1).2.1.et = 8 ∧
    (WaterBalance.update_water_storage pC sC1 fC1).2.1.interception = 2 ∧
    ¬ float_le 0 0 := by
  norm_num [WaterBalance.update_water_storage, pC, sC, sC1, fC, fC1, clip,
    float_le, float_lt]

/-! ## Claim C8: infiltration / interception rule -/

/-- The infiltration rule exactly as the claim words it: the pair
`(interception, erain)` as a function of rain, lai and the two
interception parameters. -/
def infiltration_rule (rain lai intercep_frac max_intercep_lai : ℝ) :
    ℝ × ℝ :=
  if lai > 0 then
    let interception := rain * intercep_frac * min 1 (lai / max_intercep_lai)
    (interception, rain - interception)
  else
    (0, max 0 rain)

/-- Claim C8: for every rain and lai, `calc_infiltration` sets
`interception` and `erain` according to the claim's rule: for `lai > 0`,
`interception = rain * intercep_frac * min(1, lai / max_intercep_lai)` and
`erain = rain - interception`; otherwise `erain = max(0, rain)` and
`interception = 0`. -/
theorem calc_infiltration_spec
    (params : Params) (state : State) (fluxes : Fluxes) (rain : ℝ) :
    ((WaterBalance.calc_infiltration params state fluxes rain).interception,
     (WaterBalance.calc_infiltration params state fluxes rain).erain) =
    infiltration_rule rain state.lai params.intercep_frac
      params.max_intercep_lai := by
  simp only [WaterBalance.calc_infiltration, infiltration_rule]
  split_ifs <;> simp

/-! ## Claim C5: numeric domain errors are raised, not propagated -/

/-- Claim C5: degenerate inputs raise an error instead of silently
producing a value: `vpd ≤ 0` makes the stomatal-conductance computation
raise (sqrt domain error for `vpd < 0`, division by `sqrt(0)` for
`vpd = 0`), `ca = 0` makes it raise (ZeroDivisionError), and a zero layer
capacity used as the divisor of the relative saturation makes
`calculate_soil_water_fac` raise (ZeroDivisionError), for either layer. -/
theorem numeric_domain_errors
    (control : Control) (params : Params) (state : State)
    (vpd ca daylen gpp temp : ℝ) (press : Option ℝ) :
    (vpd ≤ 0 →
      WaterBalance.calc_stomatal_conductance params state vpd ca daylen gpp
        press temp = none) ∧
    (ca = 0 →
      WaterBalance.calc_stomatal_conductance params state vpd ca daylen gpp
        press temp = none) ∧
    (params.wcapac_topsoil = 0 →
      SoilMoisture.calculate_soil_water_fac control params state = none) ∧
    (params.wcapac_root = 0 →
      SoilMoisture.calculate_soil_water_fac control params state = none) := by
  refine ⟨?_, ?_, ?_, ?_⟩
  · intro hvpd
    unfold WaterBalance.calc_stomatal_conductance
    cases hd : div_f 1 (60 * 60 * daylen) with
    | none => simp [hd]
    | some d =>
      rcases lt_or_eq_of_le hvpd with h | h
      · simp [hd, sqrt_f, h]
      · subst h
        simp [hd, sqrt_f, div_f]
  · intro hca
    subst hca
    unfold WaterBalance.calc_stomatal_conductance
    cases hd : div_f 1 (60 * 60 * daylen) with
    | none => simp [hd]
    | some d =>
      cases hs : sqrt_f vpd with
      | none => simp [hd, hs]
      | some s =>
        cases hq : div_f (params.g1 * state.wtfac_root) s with
        | none => simp [hd, hs, hq]
        | some q => simp [hd, hs, hq, div_f]
  · intro h
    unfold SoilMoisture.calculate_soil_water_fac
    simp [h, div_f]
  · intro h
    unfold SoilMoisture.calculate_soil_water_fac
    cases hd : div_f state.pawater_topsoil params.wcapac_topsoil with
    | none => simp [hd]
    | some d => simp [hd, h, div_f]

/-- Witness for C5: the `vpd < 0` case at a concrete input. -/
theorem numeric_domain_errors_witness :
    WaterBalance.calc_stomatal_conductance pC sC (-1) 380 12 5
      (some 101.3) 0 = none :=
  (numeric_domain_errors ⟨1, "MATE", 0, true⟩ pC sC (-1) 380 12 5 0
    (some 101.3)).1 (by norm_num)

/-! ## Claim C9: stress models 0 and 1 stay inside [0, 1] -/

/-- Claim C9: for relative saturations in `[0, 1]` in both layers, stress
model 0 (`wtfac = smc ^ qs` with `qs > 0`) and stress model 1 (the
Landsberg-Waring form with `ctheta > 0`, `ntheta > 0`) succeed and return
`wtfac` values in `[0, 1]` for both the topsoil and the root layer. -/
theorem soil_water_fac_bounds
    (control0 control1 : Control) (params : Params) (state : State)
    (smct smcr ct nt cr nr : ℝ)
    (h0 : control0.sw_stress_model = 0) (h1 : control1.sw_stress_model = 1)
    (hdt : div_f state.pawater_topsoil params.wcapac_topsoil = some smct)
    (hdr : div_f state.pawater_root params.wcapac_root = some smcr)
    (ht0 : 0 ≤ smct) (ht1 : smct ≤ 1) (hr0 : 0 ≤ smcr) (hr1 : smcr ≤ 1)
    (hqs : 0 < params.qs)
    (hct : params.ctheta_topsoil = some ct) (hctpos : 0 < ct)
    (hnt : params.ntheta_topsoil = some nt) (hntpos : 0 < nt)
    (hcr : params.ctheta_root = some cr) (hcrpos : 0 < cr)
    (hnr : params.ntheta_root = some nr) (hnrpos : 0 < nr) :
    (∃ wt wr,
      SoilMoisture.calculate_soil_water_fac control0 params state =
        some (wt, wr) ∧ 0 ≤ wt ∧ wt ≤ 1 ∧ 0 ≤ wr ∧ wr ≤ 1) ∧
    (∃ wt wr,
      SoilMoisture.calculate_soil_water_fac control1 params state =
        some (wt, wr) ∧ 0 ≤ wt ∧ wt ≤ 1 ∧ 0 ≤ wr ∧ wr ≤ 1) := by
  constructor
  · refine ⟨smct ^ params.qs, smcr ^ params.qs, ?_, ?_, ?_, ?_, ?_⟩
    · unfold SoilMoisture.calculate_soil_water_fac
      rw [hdt, hdr]
      simp [h0, pow_f, ht0.not_lt, hr0.not_lt, hqs.le.not_lt]
    · exact Real.rpow_nonneg ht0 _
    · exact Real.rpow_le_one ht0 ht1 hqs.le
    · exact Real.rpow_nonneg hr0 _
    · exact Real.rpow_le_one hr0 hr1 hqs.le
  · have hbt : (0:ℝ) ≤ (1 - smct) / ct := div_nonneg (by linarith) hctpos.le
    have hbr : (0:ℝ) ≤ (1 - smcr) / cr := div_nonneg (by linarith) hcrpos.le
    have hxt : (0:ℝ) ≤ ((1 - smct) / ct) ^ nt := Real.rpow_nonneg hbt _
    have hxr : (0:ℝ) ≤ ((1 - smcr) / cr) ^ nr := Real.rpow_nonneg hbr _
    have hdent : (1 + ((1 - smct) / ct) ^ nt) ≠ 0 := by positivity
    have hdenr : (1 + ((1 - smcr) / cr) ^ nr) ≠ 0 := by positivity
    refine ⟨1 / (1 + ((1 - smct) / ct) ^ nt),
            1 / (1 + ((1 - smcr) / cr) ^ nr), ?_, ?_, ?_, ?_, ?_⟩
    · unfold SoilMoisture.calculate_soil_water_fac
        SoilMoisture.calc_sw_modifier
      rw [hdt, hdr]
      simp [h1, hct, hnt, hcr, hnr, div_f, pow_f, hctpos.ne', hcrpos.ne',
        hbt.not_lt, hbr.not_lt, hntpos.le.not_lt, hnrpos.le.not_lt,
        hdent, hdenr]
    · positivity
    · exact (div_le_one (by positivity)).mpr (by linarith)
    · positivity
    · exact (div_le_one (by positivity)).mpr (by linarith)

/-- Witness for C9 at a concrete input (both layers at relative saturation
1/5, `qs = 1`, `ctheta = 1/2`, `ntheta = 5`). -/
theorem soil_water_fac_bounds_witness :
    (∃ wt wr,
      SoilMoisture.calculate_soil_water_fac ⟨1, "MATE", 0, true⟩ pC sC =
        some (wt, wr) ∧ 0 ≤ wt ∧ wt ≤ 1 ∧ 0 ≤ wr ∧ wr ≤ 1) ∧
    (∃ wt wr,
      SoilMoisture.calculate_soil_water_fac ⟨1, "MATE", 1, true⟩ pC sC =
        some (wt, wr) ∧ 0 ≤ wt ∧ wt ≤ 1 ∧ 0 ≤ wr ∧ wr ≤ 1) :=
  soil_water_fac_bounds ⟨1, "MATE", 0, true⟩ ⟨1, "MATE", 1, true⟩ pC sC
    (1/5) (1/5) (1/2) 5 (1/2) 5 rfl rfl
    (by norm_num [div_f, pC, sC]) (by norm_num [div_f, pC, sC])
    (by norm_num) (by norm_num) (by norm_num) (by norm_num)
    (by norm_num [pC]) (by norm_num [pC]) (by norm_num)
    (by norm_num [pC]) (by norm_num) (by norm_num [pC]) (by norm_num)
    (by norm_num [pC]) (by norm_num)

/-! ## Claim C10: Landsberg-Waring derivation is all-or-nothing -/

/-- The hydraulic-derivation block never touches the four Landsberg-Waring
parameters. -/
theorem derive_hydraulics_preserves_lw
    (control : Control) (params q : Params)
    (h : SoilMoisture.derive_hydraulics control params = some q) :
    q.ctheta_topsoil = params.ctheta_topsoil ∧
    q.ntheta_topsoil = params.ntheta_topsoil ∧
    q.ctheta_root = params.ctheta_root ∧
    q.ntheta_root = params.ntheta_root := by
  unfold SoilMoisture.derive_hydraulics at h
  by_cases hc : control.calc_sw_params = true
  · simp only [hc, if_true] at h
    cases hft : SoilMoisture.get_soil_fracs params.topsoil_type with
    | none => rw [hft] at h; simp at h
    | some ft =>
      cases hfr : SoilMoisture.get_soil_fracs params.rootsoil_type with
      | none => rw [hft, hfr] at h; simp at h
      | some fr =>
        rw [hft, hfr] at h
        simp at h
        subst h
        exact ⟨rfl, rfl, rfl, rfl⟩
  · simp [hc] at h
    subst h
    exact ⟨rfl, rfl, rfl, rfl⟩

/-- Behaviour of the Landsberg-Waring block: it derives all four
parameters (from the texture table) when all four are unset, and returns
the parameters untouched otherwise. -/
theorem derive_lw_spec (tt rt : String) (q r : Params)
    (h : SoilMoisture.derive_lw tt rt q = some r) :
    ((q.ctheta_topsoil = none ∧ q.ntheta_topsoil = none ∧
      q.ctheta_root = none ∧ q.ntheta_root = none) →
      ∃ ct cr, SoilMoisture.get_soil_params tt = some ct ∧
        SoilMoisture.get_soil_params rt = some cr ∧
        r.ctheta_topsoil = some ct.1 ∧ r.ntheta_topsoil = some ct.2 ∧
        r.ctheta_root = some cr.1 ∧ r.ntheta_root = some cr.2) ∧
    (¬ (q.ctheta_topsoil = none ∧ q.ntheta_topsoil = none ∧
        q.ctheta_root = none ∧ q.ntheta_root = none) → r = q) := by
  unfold SoilMoisture.derive_lw at h
  by_cases hall : q.ctheta_topsoil = none ∧ q.ntheta_topsoil = none ∧
      q.ctheta_root = none ∧ q.ntheta_root = none
  · rw [if_pos hall] at h
    refine ⟨fun _ => ?_, fun hno => absurd hall hno⟩
    cases hct : SoilMoisture.get_soil_params tt with
    | none => rw [hct] at h; simp at h
    | some ct =>
      cases hcr : SoilMoisture.get_soil_params rt with
      | none => rw [hct, hcr] at h; simp at h
      | some cr =>
        rw [hct, hcr] at h
        simp at h
        subst h
        exact ⟨ct, cr, rfl, rfl, rfl, rfl, rfl, rfl⟩
  · rw [if_neg hall] at h
    simp only [Option.pure_def, Option.some.injEq] at h
    exact ⟨fun hyes => absurd hyes hall, fun _ => h.symm⟩

/-- Claim C10: in `initialise_parameters` the Landsberg-Waring stress
parameters are derived from the texture lookup table only when all four of
`ctheta_topsoil`, `ntheta_topsoil`, `ctheta_root`, `ntheta_root` are
unset; if any one of them is already set, none of the four is derived and
the unset ones remain unset (the four fields are returned exactly as they
came in). -/
theorem initialise_parameters_lw_all_or_nothing
    (control : Control) (params result : Params)
    (hrun : SoilMoisture.initialise_parameters control params = some result) :
    (¬ (params.ctheta_topsoil = none ∧ params.ntheta_topsoil = none ∧
        params.ctheta_root = none ∧ params.ntheta_root = none) →
      result.ctheta_topsoil = params.ctheta_topsoil ∧
      result.ntheta_topsoil = params.ntheta_topsoil ∧
      result.ctheta_root = params.ctheta_root ∧
      result.ntheta_root = params.ntheta_root) ∧
    ((params.ctheta_topsoil = none ∧ params.ntheta_topsoil = none ∧
      params.ctheta_root = none ∧ params.ntheta_root = none) →
      ∃ ct cr,
        SoilMoisture.get_soil_params params.topsoil_type = some ct ∧
        SoilMoisture.get_soil_params params.rootsoil_type = some cr ∧
        result.ctheta_topsoil = some ct.1 ∧
        result.ntheta_topsoil = some ct.2 ∧
        result.ctheta_root = some cr.1 ∧
        result.ntheta_root = some cr.2) := by
  unfold SoilMoisture.initialise_parameters at hrun
  cases hq : SoilMoisture.derive_hydraulics control params with
  | none => rw [hq] at hrun; simp at hrun
  | some q =>
    rw [hq] at hrun
    simp only [Option.pure_def, Option.bind_eq_bind, Option.some_bind]
      at hrun
    obtain ⟨e1, e2, e3, e4⟩ := derive_hydraulics_preserves_lw control params q hq
    obtain ⟨hpos, hneg⟩ :=
      derive_lw_spec params.topsoil_type params.rootsoil_type q result hrun
    constructor
    · intro hnotall
      have hq' : ¬ (q.ctheta_topsoil = none ∧ q.ntheta_topsoil = none ∧
          q.ctheta_root = none ∧ q.ntheta_root = none) := by
        rw [e1, e2, e3, e4]; exact hnotall
      have hr := hneg hq'
      subst hr
      exact ⟨e1, e2, e3, e4⟩
    · intro hall
      have hq' : q.ctheta_topsoil = none ∧ q.ntheta_topsoil = none ∧
          q.ctheta_root = none ∧ q.ntheta_root = none := by
        rw [e1, e2, e3, e4]; exact hall
      exact hpos hq'

/-- Parameters for the C10 witness: one of the four Landsberg-Waring
parameters set, the other three unset. -/
def pC10 : Params :=
  { pC with ctheta_topsoil := some 0.5, ntheta_topsoil := none,
            ctheta_root := none, ntheta_root := none }

/-- Witness for C10: with exactly one of the four parameters set, the
initializer leaves all four exactly as they came in (the three unset ones
stay unset). -/
theorem initialise_parameters_lw_all_or_nothing_witness :
    ¬ (pC10.ctheta_topsoil = none ∧ pC10.ntheta_topsoil = none ∧
       pC10.ctheta_root = none ∧ pC10.ntheta_root = none) ∧
    (pC10.ctheta_topsoil = some 0.5 ∧ pC10.ntheta_topsoil = none ∧
     pC10.ctheta_root = none ∧ pC10.ntheta_root = none) ∧
    (pC10.ctheta_topsoil = pC10.ctheta_topsoil ∧
     pC10.ntheta_topsoil = pC10.ntheta_topsoil ∧
     pC10.ctheta_root = pC10.ctheta_root ∧
     pC10.ntheta_root = pC10.ntheta_root) :=
  ⟨by simp [pC10, pC], by simp [pC10, pC],
   (initialise_parameters_lw_all_or_nothing ⟨1, "MATE", 1, false⟩ pC10 pC10
      (by simp [SoilMoisture.initialise_parameters,
        SoilMoisture.derive_hydraulics, SoilMoisture.derive_lw,
        pC10, pC])).1
     (by simp [pC10, pC])⟩

/-! ## Claim C4: unrecognized control values -/

/-- A day of calm, cold, rainless forcing used by the C4 theorems. -/
def mC : MetDay :=
  { tair_am := 0, tair_pm := 0, tair_day := 0, rain := 0, sw_rad_am := 0,
    sw_rad_pm := 0, sw_rad_day := 0, vpd_am := 1, vpd_pm := 1, vpd_day := 1,
    wind_am := 1, wind_pm := 1, wind_day := 1, ca := 380,
    press := some 101.3 }

/-- Claim C4 (amended): there is no configuration-time validation of the
control flags.  An unrecognized `trans_model` (and an unrecognized
`assim_model` under `trans_model = 1`) makes the daily transpiration
dispatch fall through silently, returning the incoming fluxes - the
previous day's `transpiration` - unchanged and without error; an
unrecognized `sw_stress_model` makes `calculate_soil_water_fac` raise
(UnboundLocalError at its `return`) when it is called, i.e. mid-run. -/
theorem control_fallthrough
    (control : Control) (params : Params) (state : State) (fluxes : Fluxes)
    (met : MetDay) (daylen nrd nra nrp : ℝ) :
    (control.trans_model ≠ 0 → control.trans_model ≠ 1 →
     control.trans_model ≠ 2 →
      WaterBalance.transpiration_step control params state fluxes met daylen
        nrd nra nrp = some fluxes) ∧
    (control.trans_model = 1 → control.assim_model ≠ "BEWDY" →
     control.assim_model ≠ "MATE" →
      WaterBalance.transpiration_step control params state fluxes met daylen
        nrd nra nrp = some fluxes) ∧
    (control.sw_stress_model ≠ 0 → control.sw_stress_model ≠ 1 →
     control.sw_stress_model ≠ 2 →
      SoilMoisture.calculate_soil_water_fac control params state = none) := by
  refine ⟨?_, ?_, ?_⟩
  · intro h0 h1 h2
    unfold WaterBalance.transpiration_step
    simp [h0, h1, h2]
  · intro h1 hb hm
    unfold WaterBalance.transpiration_step
    simp [h1, hb, hm]
  · intro hs0 hs1 hs2
    unfold SoilMoisture.calculate_soil_water_fac
    cases hd : div_f state.pawater_topsoil params.wcapac_topsoil with
    | none => simp [hd]
    | some d =>
      cases hr : div_f state.pawater_root params.wcapac_root with
      | none => simp [hd, hr]
      | some r => simp [hd, hr, hs0, hs1, hs2]

/-- Witness for C4 (amended) at concrete unrecognized control values. -/
theorem control_fallthrough_witness :
    WaterBalance.transpiration_step ⟨3, "MATE", 0, false⟩ pC sC fC mC
      12 0 0 0 = some fC ∧
    WaterBalance.transpiration_step ⟨1, "SPA", 0, false⟩ pC sC fC mC
      12 0 0 0 = some fC ∧
    SoilMoisture.calculate_soil_water_fac ⟨1, "MATE", 7, false⟩ pC sC =
      none :=
  ⟨(control_fallthrough ⟨3, "MATE", 0, false⟩ pC sC fC mC 12 0 0 0).1
      (by decide) (by decide) (by decide),
   (control_fallthrough ⟨1, "SPA", 0, false⟩ pC sC fC mC 12 0 0 0).2.1
      rfl (by decide) (by decide),
   (control_fallthrough ⟨1, "MATE", 7, false⟩ pC sC fC mC 12 0 0 0).2.2
      (by decide) (by decide) (by decide)⟩

/-- Counterexample to C4 as stated: with the unrecognized `trans_model = 3`
the daily call `calculate_water_balance` does not fail - it runs to
completion (returns `some`), and the day's fluxes keep the stale incoming
`transpiration = 7` (which even feeds `et`), instead of any error being
surfaced at configuration time. -/
theorem calculate_water_balance_unrecognized_runs :
    Option.map (fun r => (r.2.transpiration, r.2.et))
      (WaterBalance.calculate_water_balance ⟨3, "MATE", 0, false⟩ pC sC fC
        mC 12) = some (7, 7) ∧ fC.transpiration = 7 := by
  constructor
  · norm_num [WaterBalance.calculate_water_balance,
      WaterBalance.transpiration_step, WaterBalance.calc_radiation,
      WaterBalance.calc_infiltration, WaterBalance.calc_soil_evaporation,
      WaterBalance.update_water_storage, Penman.calc_evaporation,
      clip, float_le, float_lt, float_gt, pC, sC, fC, mC,
      WATT_HR_TO_MJ, max_def]
  · norm_num [fC]

/-! ## Claims C6 and C7: orderings of the evaporation models -/

/-- Helper: `float_gt gs 0` holds exactly for positive `gs`. -/
theorem float_gt_zero_iff (gs : ℝ) : float_gt gs 0 ↔ 0 < gs := by
  unfold float_gt
  constructor
  · intro h
    by_contra hle
    push_neg at hle
    rw [abs_of_nonpos hle] at h
    linarith
  · intro h
    rw [abs_of_pos h]
    linarith

/-- Characterization of the full Penman-Monteith evaporation on the
`gs > 0` branch with pressure and aerodynamic conductance supplied. -/
theorem PM_calc_evaporation_of_pos
    (self : PenmanMonteith) (vpd wind gs net_rad tavg press ga : ℝ)
    (canht : Option ℝ) (hgs : 0 < gs) :
    PenmanMonteith.calc_evaporation self vpd wind gs net_rad tavg
      (some press) canht (some ga) =
    some
      ((PenmanMonteith.calc_slope_of_saturation_vapour_pressure_curve tavg *
          net_rad +
        PenmanMonteith.calc_density_of_air tavg * self.cp * vpd * ga) /
       (PenmanMonteith.calc_slope_of_saturation_vapour_pressure_curve tavg +
        self.calc_pyschrometric_constant
          (PenmanMonteith.calc_latent_heat_of_vapourisation tavg) press *
          (1 + ga / gs)) /
       PenmanMonteith.calc_latent_heat_of_vapourisation tavg,
       (PenmanMonteith.calc_slope_of_saturation_vapour_pressure_curve tavg /
          self.calc_pyschrometric_constant
            (PenmanMonteith.calc_latent_heat_of_vapourisation tavg) press +
        1) /
       (PenmanMonteith.calc_slope_of_saturation_vapour_pressure_curve tavg /
          self.calc_pyschrometric_constant
            (PenmanMonteith.calc_latent_heat_of_vapourisation tavg) press +
        1 + ga / gs)) := by
  have hgt : float_gt gs 0 := (float_gt_zero_iff gs).mpr hgs
  unfold PenmanMonteith.calc_evaporation
  simp [hgt]

/-- Claim C6 (amended): with identical radiation, temperature and pressure
and `gs > 0`, `ga > 0`, `vpd > 0`, full Penman-Monteith evaporation is at
least the Penman equilibrium evaporation PROVIDED the stomatal conductance
is large enough relative to the radiation load:
`slope * gamma * net_rad ≤ rho * cp * vpd * (slope + gamma) * gs`
(the threshold the counterexample below forces; physical-domain bounds on
temperature and pressure keep every thermodynamic factor positive). -/
theorem penman_le_full_of_gs_large
    (self : PenmanMonteith) (vpd wind gs net_rad tavg press ga : ℝ)
    (canht : Option ℝ)
    (hcp : 0 < self.cp) (heps : 0 < self.epsilon)
    (htl : -237.3 < tavg) (hth : tavg ≤ 1059)
    (hpress : 0 < press) (hgs : 0 < gs) (hga : 0 < ga) (hvpd : 0 < vpd)
    (hnr : 0 ≤ net_rad)
    (hcond :
      PenmanMonteith.calc_slope_of_saturation_vapour_pressure_curve tavg *
        self.calc_pyschrometric_constant
          (PenmanMonteith.calc_latent_heat_of_vapourisation tavg) press *
        net_rad ≤
      PenmanMonteith.calc_density_of_air tavg * self.cp * vpd *
        (PenmanMonteith.calc_slope_of_saturation_vapour_pressure_curve tavg +
         self.calc_pyschrometric_constant
           (PenmanMonteith.calc_latent_heat_of_vapourisation tavg) press) *
        gs) :
    ∃ et om,
      PenmanMonteith.calc_evaporation self vpd wind gs net_rad tavg
        (some press) canht (some ga) = some (et, om) ∧
      Penman.calc_evaporation self net_rad tavg (some press) ≤ et := by
  rw [PM_calc_evaporation_of_pos self vpd wind gs net_rad tavg press ga
    canht hgs]
  set S := PenmanMonteith.calc_slope_of_saturation_vapour_pressure_curve tavg
    with hSdef
  set L := PenmanMonteith.calc_latent_heat_of_vapourisation tavg with hLdef
  set G := self.calc_pyschrometric_constant L press with hGdef
  set rho := PenmanMonteith.calc_density_of_air tavg with hrhodef
  have ht : (0:ℝ) < tavg + 237.3 := by linarith
  have hL : 0 < L := by
    rw [hLdef]
    unfold PenmanMonteith.calc_latent_heat_of_vapourisation
    linarith
  have hS : 0 < S := by
    rw [hSdef]
    unfold PenmanMonteith.calc_slope_of_saturation_vapour_pressure_curve
    have h1 : (0:ℝ) < 4098 * (0.6108 * Real.exp ((17.27 * tavg) / (tavg + 237.3))) := by
      positivity
    have h2 : (0:ℝ) < (tavg + 237.3) ^ 2 := by positivity
    exact div_pos h1 h2
  have hG : 0 < G := by
    rw [hGdef]
    unfold PenmanMonteith.calc_pyschrometric_constant
    exact div_pos (mul_pos hcp hpress) (mul_pos heps hL)
  have hx : 0 < ga / gs := div_pos hga hgs
  have hD1 : 0 < S + G * (1 + ga / gs) := by positivity
  have hD2 : 0 < S + G := by positivity
  refine ⟨_, _, rfl, ?_⟩
  unfold Penman.calc_evaporation
  simp only [Option.getD_some]
  rw [← hGdef]
  rw [div_le_div_iff_of_pos_right hL, div_mul_eq_mul_div,
    div_le_div_iff₀ hD2 hD1]
  have key2 : S * G * net_rad * (ga / gs) ≤
      rho * self.cp * vpd * (S + G) * ga := by
    calc S * G * net_rad * (ga / gs) ≤
        rho * self.cp * vpd * (S + G) * gs * (ga / gs) :=
          mul_le_mul_of_nonneg_right hcond hx.le
      _ = rho * self.cp * vpd * (S + G) * (ga / gs * gs) := by ring
      _ = rho * self.cp * vpd * (S + G) * ga := by
          rw [div_mul_cancel₀ ga hgs.ne']
  nlinarith [key2]

/-- Counterexample to C6 as stated: at `tavg = 0`, `press = 101.3`,
`net_rad = 1` with `vpd = 1 > 0`, `ga = 1 > 0` and the tiny but positive
`gs = 10⁻⁹`, the full Penman-Monteith rate is strictly BELOW the Penman
equilibrium rate: the `ga/gs` term inflates the denominator far more than
the non-negative VPD term adds to the numerator. -/
theorem penman_le_full_counterexample :
    ∃ et om,
      PenmanMonteith.calc_evaporation
        ⟨1.013e-3, 0.41, 0.6222, 125, 0.1, 0.67, 1⟩
        1 1 (1 / 10 ^ 9) 1 0 (some 101.3) none (some 1) = some (et, om) ∧
      et < Penman.calc_evaporation
        ⟨1.013e-3, 0.41, 0.6222, 125, 0.1, 0.67, 1⟩ 1 0 (some 101.3) := by
  rw [PM_calc_evaporation_of_pos _ 1 1 (1 / 10 ^ 9) 1 0 101.3 1 none
    (by norm_num)]
  refine ⟨_, _, rfl, ?_⟩
  unfold Penman.calc_evaporation
    PenmanMonteith.calc_slope_of_saturation_vapour_pressure_curve
    PenmanMonteith.calc_pyschrometric_constant
    PenmanMonteith.calc_latent_heat_of_vapourisation
    PenmanMonteith.calc_density_of_air
  norm_num [Real.exp_zero]

/-- Witness for C6 (amended) at a concrete input satisfying the threshold
(`gs = 1000`, `net_rad = 1/1000`). -/
theorem penman_le_full_of_gs_large_witness :
    ∃ et om,
      PenmanMonteith.calc_evaporation
        ⟨1.013e-3, 0.41, 0.6222, 125, 0.1, 0.67, 1⟩
        1 1 1000 (1 / 1000) 0 (some 101.3) none (some 1) = some (et, om) ∧
      Penman.calc_evaporation ⟨1.013e-3, 0.41, 0.6222, 125, 0.1, 0.67, 1⟩
        (1 / 1000) 0 (some 101.3) ≤ et :=
  penman_le_full_of_gs_large ⟨1.013e-3, 0.41, 0.6222, 125, 0.1, 0.67, 1⟩
    1 1 1000 (1 / 1000) 0 101.3 1 none
    (by norm_num) (by norm_num) (by norm_num) (by norm_num) (by norm_num)
    (by norm_num) (by norm_num) (by norm_num) (by norm_num)
    (by unfold PenmanMonteith.calc_slope_of_saturation_vapour_pressure_curve
          PenmanMonteith.calc_pyschrometric_constant
          PenmanMonteith.calc_latent_heat_of_vapourisation
          PenmanMonteith.calc_density_of_air
        norm_num [Real.exp_zero])

/-- Claim C7 (amended): within the physical domain (`press > 0`,
`-237.3 < tavg ≤ 1059` so that every thermodynamic factor is positive) and
- for the full model - with `gs > 0` and `ga > 0`, each of the three
evaporation models is strictly increasing in net radiation, all other
inputs held fixed. -/
theorem evaporation_monotone_in_net_rad
    (self : PenmanMonteith) (vpd wind gs ga tavg press net_rad1 net_rad2 : ℝ)
    (canht : Option ℝ)
    (hcp : 0 < self.cp) (heps : 0 < self.epsilon)
    (htl : -237.3 < tavg) (hth : tavg ≤ 1059) (hpress : 0 < press)
    (hgs : 0 < gs) (hga : 0 < ga) (hr : net_rad1 < net_rad2) :
    (Penman.calc_evaporation self net_rad1 tavg (some press) <
     Penman.calc_evaporation self net_rad2 tavg (some press)) ∧
    (∃ e1 e2,
      PriestleyTaylor.calc_evaporation self net_rad1 tavg (some press) 1.26 =
        some e1 ∧
      PriestleyTaylor.calc_evaporation self net_rad2 tavg (some press) 1.26 =
        some e2 ∧
      e1 < e2) ∧
    (∃ p1 p2,
      PenmanMonteith.calc_evaporation self vpd wind gs net_rad1 tavg
        (some press) canht (some ga) = some p1 ∧
      PenmanMonteith.calc_evaporation self vpd wind gs net_rad2 tavg
        (some press) canht (some ga) = some p2 ∧
      p1.1 < p2.1) := by
  have ht : (0:ℝ) < tavg + 237.3 := by linarith
  have hL : 0 < PenmanMonteith.calc_latent_heat_of_vapourisation tavg := by
    unfold PenmanMonteith.calc_latent_heat_of_vapourisation
    linarith
  have hS : 0 <
      PenmanMonteith.calc_slope_of_saturation_vapour_pressure_curve tavg := by
    unfold PenmanMonteith.calc_slope_of_saturation_vapour_pressure_curve
    have h1 : (0:ℝ) <
        4098 * (0.6108 * Real.exp ((17.27 * tavg) / (tavg + 237.3))) := by
      positivity
    have h2 : (0:ℝ) < (tavg + 237.3) ^ 2 := by positivity
    exact div_pos h1 h2
  have hG : 0 < self.calc_pyschrometric_constant
      (PenmanMonteith.calc_latent_heat_of_vapourisation tavg) press := by
    unfold PenmanMonteith.calc_pyschrometric_constant
    exact div_pos (mul_pos hcp hpress) (mul_pos heps hL)
  have hD2 : 0 <
      PenmanMonteith.calc_slope_of_saturation_vapour_pressure_curve tavg +
      self.calc_pyschrometric_constant
        (PenmanMonteith.calc_latent_heat_of_vapourisation tavg) press :=
    add_pos hS hG
  have hx : 0 < ga / gs := div_pos hga hgs
  have h1x : (0:ℝ) < 1 + ga / gs := by linarith
  have hD1 : 0 <
      PenmanMonteith.calc_slope_of_saturation_vapour_pressure_curve tavg +
      self.calc_pyschrometric_constant
        (PenmanMonteith.calc_latent_heat_of_vapourisation tavg) press *
        (1 + ga / gs) :=
    add_pos hS (mul_pos hG h1x)
  refine ⟨?_, ?_, ?_⟩
  · unfold Penman.calc_evaporation
    simp only [Option.getD_some]
    rw [div_lt_div_iff_of_pos_right hL]
    exact mul_lt_mul_of_pos_left hr (div_pos hS hD2)
  · unfold PriestleyTaylor.calc_evaporation
    simp only [Option.pure_def, Option.bind_eq_bind, Option.some_bind]
    refine ⟨_, _, rfl, rfl, ?_⟩
    exact mul_lt_mul_of_pos_left hr
      (mul_pos (div_pos (by norm_num) hL) (div_pos hS hD2))
  · rw [PM_calc_evaporation_of_pos self vpd wind gs net_rad1 tavg press ga
      canht hgs]
    rw [PM_calc_evaporation_of_pos self vpd wind gs net_rad2 tavg press ga
      canht hgs]
    refine ⟨_, _, rfl, rfl, ?_⟩
    simp only []
    rw [div_lt_div_iff_of_pos_right hL, div_lt_div_iff_of_pos_right hD1]
    exact add_lt_add_right (mul_lt_mul_of_pos_left hr hS) _

/-- Counterexample to C7 as stated: with `gs = 0` (all other inputs fixed
and physically ordinary) the full Penman-Monteith model returns `(0, 0)`
for both `net_rad = 1` and `net_rad = 2`, so its output is NOT strictly
increasing in net radiation. -/
theorem evaporation_monotone_counterexample :
    (1:ℝ) < 2 ∧
    PenmanMonteith.calc_evaporation
      ⟨1.013e-3, 0.41, 0.6222, 125, 0.1, 0.67, 1⟩
      1 1 0 1 0 (some 101.3) none (some 1) = some (0, 0) ∧
    PenmanMonteith.calc_evaporation
      ⟨1.013e-3, 0.41, 0.6222, 125, 0.1, 0.67, 1⟩
      1 1 0 2 0 (some 101.3) none (some 1) = some (0, 0) := by
  have hngt : ¬ float_gt (0:ℝ) 0 := by
    unfold float_gt
    norm_num
  refine ⟨by norm_num, ?_, ?_⟩ <;>
  · unfold PenmanMonteith.calc_evaporation
    simp [hngt]

/-- Witness for C7 (amended) at a concrete input. -/
theorem evaporation_monotone_in_net_rad_witness :
    (Penman.calc_evaporation ⟨1.013e-3, 0.41, 0.6222, 125, 0.1, 0.67, 1⟩
       0 0 (some 101.3) <
     Penman.calc_evaporation ⟨1.013e-3, 0.41, 0.6222, 125, 0.1, 0.67, 1⟩
       1 0 (some 101.3)) ∧
    (∃ e1 e2,
      PriestleyTaylor.calc_evaporation
        ⟨1.013e-3, 0.41, 0.6222, 125, 0.1, 0.67, 1⟩ 0 0 (some 101.3) 1.26 =
        some e1 ∧
      PriestleyTaylor.calc_evaporation
        ⟨1.013e-3, 0.41, 0.6222, 125, 0.1, 0.67, 1⟩ 1 0 (some 101.3) 1.26 =
        some e2 ∧
      e1 < e2) ∧
    (∃ p1 p2,
      PenmanMonteith.calc_evaporation
        ⟨1.013e-3, 0.41, 0.6222, 125, 0.1, 0.67, 1⟩ 1 1 1 0 0
        (some 101.3) none (some 1) = some p1 ∧
      PenmanMonteith.calc_evaporation
        ⟨1.013e-3, 0.41, 0.6222, 125, 0.1, 0.67, 1⟩ 1 1 1 1 0
        (some 101.3) none (some 1) = some p2 ∧
      p1.1 < p2.1) :=
  evaporation_monotone_in_net_rad
    ⟨1.013e-3, 0.41, 0.6222, 125, 0.1, 0.67, 1⟩ 1 1 1 1 0 101.3 0 1 none
    (by norm_num) (by norm_num) (by norm_num) (by norm_num) (by norm_num)
    (by norm_num) (by norm_num) (by norm_num)

end Pygday
